import Mathlib

/-!
Shallow embedding of the loan-pricing engine in `Paginas/premissas.py`
(the function `simular_emprestimo` together with the recovery simulation of
`app`).  Floating-point arithmetic is modelled over `ℚ`; the external
numerical routines (`npf.irr`, `scipy.optimize.root_scalar`) are abstract
function parameters.
-/

namespace Premissas

/-- The operation type `tipo_operacao ∈ {"aluguel", "compra"}` (the source
raises `ValueError` for any other string before any computation happens). -/
inductive TipoOperacao
  | aluguel
  | compra
  deriving DecidableEq

/-- The keyword parameters of `simular_emprestimo`, in source order
(`pmt_min`, `pmt_max`, `n_points` are passed separately to the root search). -/
structure Params where
  valor_emprestado : ℚ
  num_parcelas : ℕ
  tir_desejada : ℚ
  inflacao_anual : ℚ
  aliquota_pis : ℚ
  aliquota_cofins : ℚ
  tipo_operacao : TipoOperacao
  aliquota_irpj : ℚ
  aliquota_cssl : ℚ
  limite_isencao_irpj : ℚ
  aliquota_adicional_irpj : ℚ

/-- Source: `impostos_meses = [mes for mes in range(4, num_parcelas + 1) if (mes - 1) % 3 == 0]`. -/
def impostos_meses (num_parcelas : ℕ) : List ℕ :=
  (List.range' 4 (num_parcelas + 1 - 4)).filter (fun mes => (mes - 1) % 3 == 0)

/-- The eligibility test `m >= 4 and (m - 1) % 3 == 0` used by the while-loop
that places the extra settlement flow for "compra". -/
def elegivel (m : ℕ) : Bool :=
  decide (4 ≤ m) && ((m - 1) % 3 == 0)

/-- For "compra" the source runs `m = num_parcelas + 1` and increments until
`elegivel m`; one of `num_parcelas + 1 .. num_parcelas + 4` always qualifies
(`elegivel_fallback`), so the unbounded loop is embedded as this bounded
search, which returns the same first eligible index.  For "aluguel",
`extra_index = num_parcelas + 1`. -/
def extra_index (tipo : TipoOperacao) (num_parcelas : ℕ) : ℕ :=
  match tipo with
  | .compra =>
      if elegivel (num_parcelas + 1) then num_parcelas + 1
      else if elegivel (num_parcelas + 2) then num_parcelas + 2
      else if elegivel (num_parcelas + 3) then num_parcelas + 3
      else num_parcelas + 4
  | .aluguel => num_parcelas + 1

lemma elegivel_iff (m : ℕ) : elegivel m = true ↔ 4 ≤ m ∧ (m - 1) % 3 = 0 := by
  simp [elegivel]

lemma elegivel_fallback (n : ℕ) (h1 : ¬ elegivel (n + 1) = true)
    (h2 : ¬ elegivel (n + 2) = true) (h3 : ¬ elegivel (n + 3) = true) :
    elegivel (n + 4) = true := by
  simp [elegivel] at h1 h2 h3 ⊢
  omega

lemma extra_index_gt (tipo : TipoOperacao) (n : ℕ) : n < extra_index tipo n := by
  cases tipo <;> simp only [extra_index] <;> repeat' split
  all_goals omega

lemma extra_index_compra_elegivel (n : ℕ) :
    elegivel (extra_index .compra n) = true := by
  simp only [extra_index]
  split
  · assumption
  · split
    · assumption
    · split
      · assumption
      · exact elegivel_fallback n (by assumption) (by assumption) (by assumption)

lemma extra_index_compra_least (n m : ℕ) (hm : n < m) (he : elegivel m = true) :
    extra_index .compra n ≤ m := by
  simp only [extra_index]
  simp only [elegivel_iff] at he
  split
  · omega
  · split
    · rename_i h1 _
      rw [Bool.not_eq_true, ← Bool.not_eq_true, elegivel_iff] at h1
      omega
    · split
      · rename_i h1 h2 _
        rw [Bool.not_eq_true, ← Bool.not_eq_true, elegivel_iff] at h1 h2
        omega
      · rename_i h1 h2 h3
        rw [Bool.not_eq_true, ← Bool.not_eq_true, elegivel_iff] at h1 h2 h3
        omega

lemma extra_index_compra_le (n : ℕ) (hn : 1 ≤ n) :
    extra_index .compra n ≤ n + 3 := by
  have h4 : 4 ≤ n + 4 := by omega
  simp only [extra_index]
  split
  · omega
  · split
    · omega
    · split
      · omega
      · rename_i h1 h2 h3
        exfalso
        have := elegivel_fallback n h1 h2 h3
        simp only [elegivel_iff] at h1 h2 h3 this
        omega

lemma four_le_extra_index_compra (n : ℕ) : 4 ≤ extra_index .compra n := by
  have := extra_index_compra_elegivel n
  rw [elegivel_iff] at this
  exact this.1

lemma mem_impostos_meses (n p : ℕ) :
    p ∈ impostos_meses n ↔ 4 ≤ p ∧ p ≤ n ∧ (p - 1) % 3 = 0 := by
  simp only [impostos_meses, List.mem_filter, List.mem_range'_1, beq_iff_eq]
  omega

lemma impostos_meses_closed (n : ℕ) :
    impostos_meses n = (List.range ((n - 1) / 3)).map (fun i => 4 + 3 * i) := by
  induction n with
  | zero => rfl
  | succ n ih =>
    by_cases hn : n < 3
    · interval_cases n <;> rfl
    · have hrange : n + 1 + 1 - 4 = (n + 1 - 4) + 1 := by omega
      rw [impostos_meses, hrange, List.range'_concat, List.filter_append]
      have hlast : 4 + 1 * (n + 1 - 4) = n + 1 := by omega
      rw [hlast]
      by_cases h3 : n % 3 = 0
      · have hdiv : (n + 1 - 1) / 3 = (n - 1) / 3 + 1 := by omega
        rw [hdiv, List.range_succ, List.map_append]
        have hval : 4 + 3 * ((n - 1) / 3) = n + 1 := by omega
        simp only [List.filter_cons, List.filter_nil, List.map_cons, List.map_nil, hval]
        rw [← impostos_meses, ih]
        have : ((n + 1 - 1) % 3 == 0) = true := by
          simp only [beq_iff_eq]; omega
        simp [this]
        all_goals omega
      · have hdiv : (n + 1 - 1) / 3 = (n - 1) / 3 := by omega
        rw [hdiv]
        have : ((n + 1 - 1) % 3 == 0) = false := by
          simp only [beq_eq_false_iff_ne, ne_eq]; omega
        simp only [List.filter_cons, this, List.filter_nil, List.append_nil]
        rw [← impostos_meses, ih]
        simp

/-- The running payment `pmt_atual` of `calcular_fluxos_com_impostos`: the loop
starts from `pmt_bruta` and, at every month `mes > 1` with `(mes - 1) % 12 == 0`,
multiplies by `(1 + inflacao_anual)` before using the value. -/
def pmt_atual (pmt_bruta inflacao_anual : ℚ) : ℕ → ℚ
  | 0 => pmt_bruta
  | mes + 1 =>
      if mes + 1 > 1 ∧ mes % 12 = 0 then
        pmt_atual pmt_bruta inflacao_anual mes * (1 + inflacao_anual)
      else
        pmt_atual pmt_bruta inflacao_anual mes

/-- The array `fluxo_bruta`: `-valor_emprestado` at month 0, the escalated
payment at months `1 .. num_parcelas`, and 0 at the gap months and at
`extra_index` (lines 150-151 and 188 of the source). -/
def fluxo_bruta (P : Params) (pmt_bruta : ℚ) (mes : ℕ) : ℚ :=
  if mes = 0 then -P.valor_emprestado
  else if mes ≤ P.num_parcelas then pmt_atual pmt_bruta P.inflacao_anual mes
  else 0

/-- Source: `sum(fluxo_bruta[mes - 3 : mes])`.  Every call site has `mes ≥ 4`
(recognition months and the extra index), where the Python slice holds exactly
the three elements `mes - 3, mes - 2, mes - 1`. -/
def soma_3_fluxos (P : Params) (pmt_bruta : ℚ) (mes : ℕ) : ℚ :=
  fluxo_bruta P pmt_bruta (mes - 3) + fluxo_bruta P pmt_bruta (mes - 2) +
    fluxo_bruta P pmt_bruta (mes - 1)

/-- The value `factor_cssl` of the builder loop.  In the source the "aluguel" branch
distinguishes `mes == max(impostos_meses)` but assigns `0.32` in both arms
(lines 105-111), so the two arms are collapsed here. -/
def factor_cssl (P : Params) (mes : ℕ) : ℚ :=
  match P.tipo_operacao with
  | .aluguel => if mes ∈ impostos_meses P.num_parcelas then 32 / 100 else 0
  | .compra =>
      if mes ∈ impostos_meses P.num_parcelas then
        if mes < P.num_parcelas then 32 / 100 else 12 / 100
      else 0

/-- The value `factor_irpj` of the builder loop (same no-op collapse for "aluguel"). -/
def factor_irpj (P : Params) (mes : ℕ) : ℚ :=
  match P.tipo_operacao with
  | .aluguel => if mes ∈ impostos_meses P.num_parcelas then 32 / 100 else 0
  | .compra =>
      if mes ∈ impostos_meses P.num_parcelas then
        if mes < P.num_parcelas then 32 / 100 else 8 / 100
      else 0

/-- The value `base_cssl` computed at a recognition month of the builder loop. -/
def base_cssl_loop (P : Params) (pmt_bruta : ℚ) (mes : ℕ) : ℚ :=
  soma_3_fluxos P pmt_bruta mes * factor_cssl P mes

/-- The value `base_irpj` computed at a recognition month of the builder loop. -/
def base_irpj_loop (P : Params) (pmt_bruta : ℚ) (mes : ℕ) : ℚ :=
  soma_3_fluxos P pmt_bruta mes * factor_irpj P mes

/-- The value `base_adicional` of the builder loop:
`base_irpj - limite` when `base_irpj >= limite_isencao_irpj`, else 0. -/
def base_adicional_loop (P : Params) (pmt_bruta : ℚ) (mes : ℕ) : ℚ :=
  if P.limite_isencao_irpj ≤ base_irpj_loop P pmt_bruta mes then
    base_irpj_loop P pmt_bruta mes - P.limite_isencao_irpj
  else 0

/-- The final-flow CSSL base (lines 160-186): computed only when
`num_parcelas >= 3`, over the 3 gross flows before `extra_index`, with factor
`0.32` for "aluguel" and `0.12` for "compra". -/
def base_cssl_final (P : Params) (pmt_bruta : ℚ) : ℚ :=
  if 3 ≤ P.num_parcelas then
    soma_3_fluxos P pmt_bruta (extra_index P.tipo_operacao P.num_parcelas) *
      (match P.tipo_operacao with
       | .aluguel => 32 / 100
       | .compra => 12 / 100)
  else 0

/-- The final-flow IRPJ base: factor `0.32` for "aluguel", `0.08` for "compra". -/
def base_irpj_final (P : Params) (pmt_bruta : ℚ) : ℚ :=
  if 3 ≤ P.num_parcelas then
    soma_3_fluxos P pmt_bruta (extra_index P.tipo_operacao P.num_parcelas) *
      (match P.tipo_operacao with
       | .aluguel => 32 / 100
       | .compra => 8 / 100)
  else 0

/-- The value `base_adicional_final`: computed from `base_irpj_final` under the
`num_parcelas >= 3` branch, set to 0.0 directly in the `else` branch. -/
def base_adicional_final (P : Params) (pmt_bruta : ℚ) : ℚ :=
  if 3 ≤ P.num_parcelas then
    if P.limite_isencao_irpj ≤ base_irpj_final P pmt_bruta then
      base_irpj_final P pmt_bruta - P.limite_isencao_irpj
    else 0
  else 0

/-- The value `custo_cssl_final` (the `num_parcelas < 3` branch sets it to 0; here the
base is already 0 in that case, so the product is 0 as well). -/
def custo_cssl_final (P : Params) (pmt_bruta : ℚ) : ℚ :=
  -(base_cssl_final P pmt_bruta * P.aliquota_cssl)

/-- The value `custo_irpj_final`. -/
def custo_irpj_final (P : Params) (pmt_bruta : ℚ) : ℚ :=
  -(base_irpj_final P pmt_bruta * P.aliquota_irpj +
      base_adicional_final P pmt_bruta * P.aliquota_adicional_irpj)

/-- The assembled array `custos_pis`: written at months `1 .. num_parcelas`,
zero at month 0, the gap months and `extra_index` (line 200). -/
def custos_pis (P : Params) (pmt_bruta : ℚ) (mes : ℕ) : ℚ :=
  if 1 ≤ mes ∧ mes ≤ P.num_parcelas then
    -(fluxo_bruta P pmt_bruta mes * P.aliquota_pis)
  else 0

/-- The assembled array `custos_cofins` (zeroed at `extra_index`, line 201). -/
def custos_cofins (P : Params) (pmt_bruta : ℚ) (mes : ℕ) : ℚ :=
  if 1 ≤ mes ∧ mes ≤ P.num_parcelas then
    -(fluxo_bruta P pmt_bruta mes * P.aliquota_cofins)
  else 0

/-- The assembled array `custos_cssl`: loop value at recognition months, the
final value at `extra_index` (line 202), zero elsewhere.  `extra_index` is
strictly greater than `num_parcelas`, so the two writes never overlap. -/
def custos_cssl (P : Params) (pmt_bruta : ℚ) (mes : ℕ) : ℚ :=
  if mes = extra_index P.tipo_operacao P.num_parcelas then
    custo_cssl_final P pmt_bruta
  else if mes ∈ impostos_meses P.num_parcelas then
    -(base_cssl_loop P pmt_bruta mes * P.aliquota_cssl)
  else 0

/-- The assembled array `custos_irpj` (line 203 for the extra index). -/
def custos_irpj (P : Params) (pmt_bruta : ℚ) (mes : ℕ) : ℚ :=
  if mes = extra_index P.tipo_operacao P.num_parcelas then
    custo_irpj_final P pmt_bruta
  else if mes ∈ impostos_meses P.num_parcelas then
    -(base_irpj_loop P pmt_bruta mes * P.aliquota_irpj +
        base_adicional_loop P pmt_bruta mes * P.aliquota_adicional_irpj)
  else 0

/-- The assembled array `bases_irpj` (line 204 for the extra index). -/
def bases_irpj (P : Params) (pmt_bruta : ℚ) (mes : ℕ) : ℚ :=
  if mes = extra_index P.tipo_operacao P.num_parcelas then
    base_irpj_final P pmt_bruta
  else if mes ∈ impostos_meses P.num_parcelas then
    base_irpj_loop P pmt_bruta mes
  else 0

/-- The assembled array `bases_adicional_irpj` (line 205 for the extra index). -/
def bases_adicional_irpj (P : Params) (pmt_bruta : ℚ) (mes : ℕ) : ℚ :=
  if mes = extra_index P.tipo_operacao P.num_parcelas then
    base_adicional_final P pmt_bruta
  else if mes ∈ impostos_meses P.num_parcelas then
    base_adicional_loop P pmt_bruta mes
  else 0

/-- The array `fluxo_liquida`: `-valor_emprestado` at month 0, gross plus all
four costs at months `1 .. num_parcelas`, the final CSSL+IRPJ settlement at
`extra_index` (line 189), zero at the gap months. -/
def fluxo_liquida (P : Params) (pmt_bruta : ℚ) (mes : ℕ) : ℚ :=
  if mes = 0 then -P.valor_emprestado
  else if mes ≤ P.num_parcelas then
    fluxo_bruta P pmt_bruta mes + custos_pis P pmt_bruta mes +
      custos_cofins P pmt_bruta mes + custos_cssl P pmt_bruta mes +
      custos_irpj P pmt_bruta mes
  else if mes = extra_index P.tipo_operacao P.num_parcelas then
    custo_cssl_final P pmt_bruta + custo_irpj_final P pmt_bruta
  else 0

/-- The flow list `fluxo_liquida` handed to `npf.irr`
(indices `0 .. extra_index`). -/
def fluxo_liquida_list (P : Params) (pmt_bruta : ℚ) : List ℚ :=
  (List.range (extra_index P.tipo_operacao P.num_parcelas + 1)).map
    (fluxo_liquida P pmt_bruta)

/-- The objective `funcao_goal_seek_impostos`: the IRR evaluator `npf.irr` is an abstract
parameter returning `none` where the float result is NaN.  The NaN branch
returns the sentinel `-1 - tir_desejada`, otherwise `tir_liquida - tir_desejada`. -/
def funcao_goal_seek_impostos (P : Params) (irr : List ℚ → Option ℚ)
    (pmt_bruta : ℚ) : ℚ :=
  match irr (fluxo_liquida_list P pmt_bruta) with
  | none => -1 - P.tir_desejada
  | some tir_liquida => tir_liquida - P.tir_desejada

/-- Source: `np.linspace(pmt_min, pmt_max, n_points)`, i.e.
`pmt_min + (pmt_max - pmt_min) * i / (n_points - 1)` for `i < n_points`. -/
def pmt_grid (pmt_min pmt_max : ℚ) (n_points : ℕ) : List ℚ :=
  (List.range n_points).map
    (fun i : ℕ => pmt_min + (pmt_max - pmt_min) * (i : ℚ) / ((n_points - 1 : ℕ) : ℚ))

/-- The bracketing loop (lines 220-229): for each adjacent grid pair with
`f_vals[i] * f_vals[i+1] < 0`, `root_scalar(..., method="brentq")` refines the
bracket; `refina` abstracts that solver, returning `none` when the call raises
or reports non-convergence. -/
def raizes (f : ℚ → ℚ) (refina : ℚ → ℚ → Option ℚ) (grid : List ℚ) : List ℚ :=
  (List.range (grid.length - 1)).filterMap
    (fun i =>
      if f (grid.getD i 0) * f (grid.getD (i + 1) 0) < 0 then
        refina (grid.getD i 0) (grid.getD (i + 1) 0)
      else none)

/-- Source: `pmt_otimizada = max(raizes)` when `raizes` is non-empty, otherwise the
source raises `ValueError("Nenhuma solução encontrada ...")`, modelled as
`none`. -/
def pmt_otimizada (f : ℚ → ℚ) (refina : ℚ → ℚ → Option ℚ)
    (pmt_min pmt_max : ℚ) (n_points : ℕ) : Option ℚ :=
  match raizes f refina (pmt_grid pmt_min pmt_max n_points) with
  | [] => none
  | r :: rs => some (rs.foldl max r)

/-- One row of the display table assembled in lines 252-325: the CSSL and IRPJ
base/amount columns of `df_fluxos`. -/
structure LinhaRelatorio where
  base_cssl : ℚ
  cssl : ℚ
  base_irpj : ℚ
  base_adicional : ℚ
  irpj : ℚ
  irpj_adicional : ℚ
  deriving DecidableEq

/-- The reporter's CSSL base at a recognition month (lines 260-270): the same
3-month sum as the builder (`df_fluxos.loc[mes-3 : mes-1]` is inclusive of both
ends), but for "compra" the reduced factor is applied at
`mes == max(impostos_meses)` rather than at `mes == num_parcelas`. -/
def df_base_cssl (P : Params) (pmt_bruta : ℚ) (max_imposto mes : ℕ) : ℚ :=
  soma_3_fluxos P pmt_bruta mes *
    (match P.tipo_operacao with
     | .aluguel => if mes = max_imposto then 32 / 100 else 32 / 100
     | .compra => if mes = max_imposto then 12 / 100 else 32 / 100)

/-- The reporter's IRPJ base at a recognition month (lines 273-283). -/
def df_base_irpj (P : Params) (pmt_bruta : ℚ) (max_imposto mes : ℕ) : ℚ :=
  soma_3_fluxos P pmt_bruta mes *
    (match P.tipo_operacao with
     | .aluguel => if mes = max_imposto then 32 / 100 else 32 / 100
     | .compra => if mes = max_imposto then 8 / 100 else 32 / 100)

/-- The reporter's extra-row CSSL base (lines 300-304):
`df_fluxos.loc[extra_index - 3 : extra_index]` is an inclusive slice of four
rows, the last being the zero gross flow at `extra_index`. -/
def df_base_cssl_final (P : Params) (pmt_bruta : ℚ) : ℚ :=
  (soma_3_fluxos P pmt_bruta (extra_index P.tipo_operacao P.num_parcelas) +
      fluxo_bruta P pmt_bruta (extra_index P.tipo_operacao P.num_parcelas)) *
    (match P.tipo_operacao with
     | .aluguel => 32 / 100
     | .compra => 12 / 100)

/-- The reporter's extra-row IRPJ base (lines 307-311). -/
def df_base_irpj_final (P : Params) (pmt_bruta : ℚ) : ℚ :=
  (soma_3_fluxos P pmt_bruta (extra_index P.tipo_operacao P.num_parcelas) +
      fluxo_bruta P pmt_bruta (extra_index P.tipo_operacao P.num_parcelas)) *
    (match P.tipo_operacao with
     | .aluguel => 32 / 100
     | .compra => 8 / 100)

/-- The display table of lines 252-325 as a function from month to row.  Line
299 evaluates `max(impostos_meses)` unconditionally, which raises `ValueError`
on an empty sequence (any `num_parcelas <= 3`); that failure is the `none`
case.  Months outside the recognition set and the extra row keep the 0.0
initialisation of lines 252-257. -/
def montar_relatorio (P : Params) (pmt_bruta : ℚ) :
    Option (ℕ → LinhaRelatorio) :=
  match (impostos_meses P.num_parcelas).max? with
  | none => none
  | some max_imposto =>
    some (fun mes =>
      if mes ∈ impostos_meses P.num_parcelas then
        { base_cssl := df_base_cssl P pmt_bruta max_imposto mes
          cssl := -(df_base_cssl P pmt_bruta max_imposto mes * P.aliquota_cssl)
          base_irpj := df_base_irpj P pmt_bruta max_imposto mes
          base_adicional :=
            if P.limite_isencao_irpj ≤ df_base_irpj P pmt_bruta max_imposto mes then
              df_base_irpj P pmt_bruta max_imposto mes - P.limite_isencao_irpj
            else 0
          irpj :=
            -(df_base_irpj P pmt_bruta max_imposto mes * P.aliquota_irpj) +
              -((if P.limite_isencao_irpj ≤ df_base_irpj P pmt_bruta max_imposto mes then
                  df_base_irpj P pmt_bruta max_imposto mes - P.limite_isencao_irpj
                else 0) * P.aliquota_adicional_irpj)
          irpj_adicional :=
            -((if P.limite_isencao_irpj ≤ df_base_irpj P pmt_bruta max_imposto mes then
                df_base_irpj P pmt_bruta max_imposto mes - P.limite_isencao_irpj
              else 0) * P.aliquota_adicional_irpj) }
      else if mes = extra_index P.tipo_operacao P.num_parcelas ∧
          max_imposto < extra_index P.tipo_operacao P.num_parcelas then
        { base_cssl := df_base_cssl_final P pmt_bruta
          cssl := -(df_base_cssl_final P pmt_bruta * P.aliquota_cssl)
          base_irpj := df_base_irpj_final P pmt_bruta
          base_adicional :=
            if P.limite_isencao_irpj ≤ df_base_irpj_final P pmt_bruta then
              df_base_irpj_final P pmt_bruta - P.limite_isencao_irpj
            else 0
          irpj :=
            -(df_base_irpj_final P pmt_bruta * P.aliquota_irpj) +
              -((if P.limite_isencao_irpj ≤ df_base_irpj_final P pmt_bruta then
                  df_base_irpj_final P pmt_bruta - P.limite_isencao_irpj
                else 0) * P.aliquota_adicional_irpj)
          irpj_adicional :=
            -((if P.limite_isencao_irpj ≤ df_base_irpj_final P pmt_bruta then
                df_base_irpj_final P pmt_bruta - P.limite_isencao_irpj
              else 0) * P.aliquota_adicional_irpj) }
      else
        { base_cssl := 0, cssl := 0, base_irpj := 0, base_adicional := 0,
          irpj := 0, irpj_adicional := 0 })

/-- The end-to-end pipeline of `simular_emprestimo` after the calendar setup:
root search (a raised `ValueError` is `none`), then the display table (whose
`max()` call can also raise).  The source additionally returns the raw flow
lists, which the `fluxo_bruta` / `fluxo_liquida` functions already expose. -/
def simular_emprestimo (P : Params) (irr : List ℚ → Option ℚ)
    (refina : ℚ → ℚ → Option ℚ) (pmt_min pmt_max : ℚ) (n_points : ℕ) :
    Option (ℚ × (ℕ → LinhaRelatorio)) :=
  match pmt_otimizada (funcao_goal_seek_impostos P irr) refina pmt_min pmt_max
      n_points with
  | none => none
  | some pmt =>
    match montar_relatorio P pmt with
    | none => none
    | some tabela => some (pmt, tabela)

/-- The effect of `formatar_brasileiro` on a number: `math.ceil(valor * 100) / 100` (the
string formatting is then undone by the float conversion of line 659). -/
def arredonda_centavos (x : ℚ) : ℚ :=
  (⌈x * 100⌉ : ℚ) / 100

/-- The monthly CDI rate hard-coded at line 646. -/
def cdi : ℚ := 1134762 / 100000000

/-- The IRPJ recovery rate hard-coded at line 645. -/
def recuperacao_irpj : ℚ := 34 / 100

/-- The gross-flow column as the recovery tab sees it: every value was passed
through `formatar_brasileiro` at lines 581-582 and parsed back at line 659. -/
def fluxo_bruta_arred (P : Params) (pmt_bruta : ℚ) (mes : ℕ) : ℚ :=
  arredonda_centavos (fluxo_bruta P pmt_bruta mes)

/-- The value `max_mes` of the recovery tab.  The filter
`df_fluxos["Fluxo de Caixa Bruta"] != 0` at line 651 compares strings (the
column was formatted at lines 581-582) with the integer 0, which is true for
every row, so every month `0 .. extra_index` survives and the maximum month is
`extra_index`. -/
def max_mes_rec (P : Params) : ℕ :=
  extra_index P.tipo_operacao P.num_parcelas

/-- Source: `Parcela = -fluxo_bruta` (line 675), after the month-0 flow was zeroed at
line 671. -/
def parcela_rec (P : Params) (pmt_bruta : ℚ) (mes : ℕ) : ℚ :=
  -(if mes = 0 then 0 else fluxo_bruta_arred P pmt_bruta mes)

/-- The column `Recuperação IR` (lines 680-685): `-Parcela * recuperacao_irpj`, then
zeroed for "compra" on every month `>= max_mes - 3`. -/
def recuperacao_ir (P : Params) (pmt_bruta : ℚ) (mes : ℕ) : ℚ :=
  if P.tipo_operacao = .compra ∧ max_mes_rec P - 3 ≤ mes then 0
  else -(parcela_rec P pmt_bruta mes) * recuperacao_irpj

/-- The per-month factor of the discounted initial-balance sum
(lines 696-701): 1 for "compra" months `>= max_mes - 3`, else
`1 - recuperacao_irpj`. -/
def fator_rec (P : Params) (mes : ℕ) : ℚ :=
  if P.tipo_operacao = .compra ∧ max_mes_rec P - 3 ≤ mes then 1
  else 1 - recuperacao_irpj

/-- The value `soma_ajustada` (lines 695-701): the CDI-discounted present value of the
installments net of applicable recovery, over the months `1 .. max_mes`. -/
def soma_ajustada (P : Params) (pmt_bruta : ℚ) : ℚ :=
  ((List.range' 1 (max_mes_rec P)).map
    (fun i => fator_rec P i * (fluxo_bruta_arred P pmt_bruta i / (1 + cdi) ^ i))).sum

/-! Concrete parameter sets used by counterexamples and witnesses. -/

/-- Rental scenario from the spec (monthly-normalized inflation). -/
def P_aluguel36 : Params :=
  ⟨7600000, 36, 24 / 1000, 4 / 1200, 65 / 10000, 3 / 100, .aluguel,
    15 / 100, 9 / 100, 60000, 10 / 100⟩

/-- Purchase with 5 installments (5 is not quarter-aligned), zero inflation. -/
def P_compra5 : Params :=
  ⟨7600000, 5, 24 / 1000, 0, 65 / 10000, 3 / 100, .compra,
    15 / 100, 9 / 100, 60000, 10 / 100⟩

/-- Purchase with 28 installments (the app's first Purchase option),
zero inflation. -/
def P_compra28 : Params :=
  ⟨7600000, 28, 24 / 1000, 0, 65 / 10000, 3 / 100, .compra,
    15 / 100, 9 / 100, 60000, 10 / 100⟩

/-- Rental with a single installment. -/
def P_aluguel1 : Params :=
  ⟨1000, 1, 0, 0, 0, 0, .aluguel, 15 / 100, 9 / 100, 60000, 10 / 100⟩

/-- An IRR oracle that never converges. -/
def irr_none : List ℚ → Option ℚ := fun _ => none

/-- A refinement oracle returning the bracket midpoint. -/
def refina_meio : ℚ → ℚ → Option ℚ := fun a b => some ((a + b) / 2)

/-! Claim theorems. -/

/-- C5: for every installmentCount n ≥ 1, under Rental `extra_index = n + 1`;
under Purchase `extra_index` is the smallest m > n with m ≥ 4 and
(m - 1) % 3 = 0; in particular for Purchase with n = 28, `extra_index = 31`. -/
theorem extra_index_spec (n : ℕ) (hn : 1 ≤ n) :
    extra_index .aluguel n = n + 1 ∧
    (n < extra_index .compra n ∧ 4 ≤ extra_index .compra n ∧
      (extra_index .compra n - 1) % 3 = 0 ∧
      ∀ m, n < m → 4 ≤ m → (m - 1) % 3 = 0 → extra_index .compra n ≤ m) ∧
    extra_index .compra 28 = 31 := by
  refine ⟨rfl, ⟨extra_index_gt _ n, ?_, ?_, ?_⟩, by decide⟩
  · exact ((elegivel_iff _).mp (extra_index_compra_elegivel n)).1
  · exact ((elegivel_iff _).mp (extra_index_compra_elegivel n)).2
  · intro m h1 h2 h3
    exact extra_index_compra_least n m h1 ((elegivel_iff m).mpr ⟨h2, h3⟩)

/-- Witness for C5 at n = 28. -/
theorem extra_index_spec_witness : extra_index TipoOperacao.compra 28 = 31 :=
  (extra_index_spec 28 (by norm_num)).2.2

/-- C6 counterexample: at installmentCount 4 (≥ 1) under Rental,
`extra_index = 5` is not recognition-eligible, since (5 - 1) % 3 ≠ 0. -/
theorem extra_index_aluguel_nao_elegivel :
    1 ≤ 4 ∧ extra_index TipoOperacao.aluguel 4 = 5 ∧ elegivel 5 = false := by
  decide

/-- C6 amended: for every n ≥ 1 and both operation types `extra_index` is never
an ordinary installment period (it exceeds n); it is recognition-eligible
always under Purchase, but under Rental only when 3 ≤ n and n % 3 = 0. -/
theorem extra_index_invariante (tipo : TipoOperacao) (n : ℕ) (hn : 1 ≤ n) :
    n < extra_index tipo n ∧
    (tipo = .compra → elegivel (extra_index tipo n) = true) ∧
    (tipo = .aluguel →
      (elegivel (extra_index tipo n) = true ↔ 3 ≤ n ∧ n % 3 = 0)) := by
  refine ⟨extra_index_gt tipo n, ?_, ?_⟩
  · rintro rfl
    exact extra_index_compra_elegivel n
  · rintro rfl
    simp only [extra_index, elegivel_iff]
    omega

/-- Witness for C6's amended statement at Rental, n = 36. -/
theorem extra_index_invariante_witness :
    elegivel (extra_index TipoOperacao.aluguel 36) = true :=
  ((extra_index_invariante TipoOperacao.aluguel 36 (by norm_num)).2.2 rfl).mpr
    (by norm_num)

/-- C9: for n ≥ 1 the recognition periods are exactly
{p | 4 ≤ p ∧ p ≤ n ∧ (p - 1) % 3 = 0}, and the list, in order, has i-th
element 4 + 3i, so its elements are strictly increasing and spaced exactly 3
apart starting at 4. -/
theorem impostos_meses_spec (n : ℕ) (hn : 1 ≤ n) :
    (∀ p, p ∈ impostos_meses n ↔ 4 ≤ p ∧ p ≤ n ∧ (p - 1) % 3 = 0) ∧
    impostos_meses n = (List.range ((n - 1) / 3)).map (fun i => 4 + 3 * i) :=
  ⟨fun p => mem_impostos_meses n p, impostos_meses_closed n⟩

/-- Witness for C9 at n = 12. -/
theorem impostos_meses_spec_witness : impostos_meses 12 = [4, 7, 10] := by
  rw [(impostos_meses_spec 12 (by norm_num)).2]
  decide

lemma mem_impostos_ne_extra (P : Params) (mes : ℕ)
    (h : mes ∈ impostos_meses P.num_parcelas) :
    mes ≠ extra_index P.tipo_operacao P.num_parcelas := by
  have h1 := (mem_impostos_meses _ _).mp h
  have h2 := extra_index_gt P.tipo_operacao P.num_parcelas
  omega

/-- C2: at recognition periods the builder's base factors are 32%/32% under
Rental at every recognition period including the last; under Purchase 32%/32%
strictly before `num_parcelas` and 12% (CSSL) / 8% (IRPJ) at
`mes = num_parcelas`; the stored bases and costs are built from exactly these
factors; and at every non-recognition month (the injected extra index apart)
all four CSSL/IRPJ tax fields are zero. -/
theorem fatores_builder (P : Params) (mes : ℕ) :
    (P.tipo_operacao = .aluguel → mes ∈ impostos_meses P.num_parcelas →
      factor_cssl P mes = 32 / 100 ∧ factor_irpj P mes = 32 / 100) ∧
    (P.tipo_operacao = .compra → mes ∈ impostos_meses P.num_parcelas →
      (mes < P.num_parcelas →
        factor_cssl P mes = 32 / 100 ∧ factor_irpj P mes = 32 / 100) ∧
      (mes = P.num_parcelas →
        factor_cssl P mes = 12 / 100 ∧ factor_irpj P mes = 8 / 100)) ∧
    (mes ∈ impostos_meses P.num_parcelas → ∀ pmt_bruta,
      custos_cssl P pmt_bruta mes =
        -(soma_3_fluxos P pmt_bruta mes * factor_cssl P mes * P.aliquota_cssl) ∧
      bases_irpj P pmt_bruta mes =
        soma_3_fluxos P pmt_bruta mes * factor_irpj P mes) ∧
    (mes ∉ impostos_meses P.num_parcelas →
      mes ≠ extra_index P.tipo_operacao P.num_parcelas → ∀ pmt_bruta,
      custos_cssl P pmt_bruta mes = 0 ∧ custos_irpj P pmt_bruta mes = 0 ∧
      bases_irpj P pmt_bruta mes = 0 ∧
      bases_adicional_irpj P pmt_bruta mes = 0) := by
  refine ⟨?_, ?_, ?_, ?_⟩
  · intro ht hm
    simp [factor_cssl, factor_irpj, ht, hm]
  · intro ht hm
    constructor
    · intro hlt
      simp [factor_cssl, factor_irpj, ht, hm, hlt]
    · intro heq
      have : ¬ mes < P.num_parcelas := by omega
      simp [factor_cssl, factor_irpj, ht, hm, this]
  · intro hm pmt_bruta
    have hne := mem_impostos_ne_extra P mes hm
    constructor
    · simp [custos_cssl, hne, hm, base_cssl_loop]
    · simp [bases_irpj, hne, hm, base_irpj_loop]
  · intro hm hne pmt_bruta
    refine ⟨?_, ?_, ?_, ?_⟩ <;>
      simp [custos_cssl, custos_irpj, bases_irpj, bases_adicional_irpj, hne, hm]

/-- Witness for C2 at the Rental scenario, recognition month 4. -/
theorem fatores_builder_witness :
    factor_cssl P_aluguel36 4 = 32 / 100 ∧ factor_irpj P_aluguel36 4 = 32 / 100 :=
  (fatores_builder P_aluguel36 4).1 rfl (by decide)

/-- C8: the Root Finder's objective equals netIRR(build(payment)) minus the
target when the IRR is defined, and the sentinel -1 - targetRate when `npf.irr`
returns NaN; it is a total function of the candidate payment (never an
exception). -/
theorem objetivo_spec (P : Params) (irr : List ℚ → Option ℚ) (pmt_bruta : ℚ) :
    (∀ t, irr (fluxo_liquida_list P pmt_bruta) = some t →
      funcao_goal_seek_impostos P irr pmt_bruta = t - P.tir_desejada) ∧
    (irr (fluxo_liquida_list P pmt_bruta) = none →
      funcao_goal_seek_impostos P irr pmt_bruta = -1 - P.tir_desejada) := by
  constructor
  · intro t ht
    simp [funcao_goal_seek_impostos, ht]
  · intro ht
    simp [funcao_goal_seek_impostos, ht]

/-- Witness for C8 with a never-converging IRR oracle. -/
theorem objetivo_spec_witness :
    funcao_goal_seek_impostos P_aluguel36 irr_none 100 =
      -1 - P_aluguel36.tir_desejada :=
  (objetivo_spec P_aluguel36 irr_none 100).2 rfl

/-- C3 (code slip): for num_parcelas = 1 or 2 the extra-period tax fields are
all zero, as the claim states; but the simulation never completes normally:
line 299 evaluates `max(impostos_meses)` on an empty list and raises
`ValueError`, so the pipeline fails for every IRR/refinement oracle and search
range, even when the root search succeeds. -/
theorem parcelas_pequenas (P : Params)
    (h : P.num_parcelas = 1 ∨ P.num_parcelas = 2) :
    (∀ pmt_bruta, custo_cssl_final P pmt_bruta = 0 ∧
      custo_irpj_final P pmt_bruta = 0 ∧ base_irpj_final P pmt_bruta = 0 ∧
      base_adicional_final P pmt_bruta = 0 ∧
      fluxo_liquida P pmt_bruta (extra_index P.tipo_operacao P.num_parcelas) = 0) ∧
    (∀ pmt_bruta, montar_relatorio P pmt_bruta = none) ∧
    ∀ irr refina pmt_min pmt_max n_points,
      simular_emprestimo P irr refina pmt_min pmt_max n_points = none := by
  have hn3 : ¬ 3 ≤ P.num_parcelas := by omega
  have hvazio : impostos_meses P.num_parcelas = [] := by
    rcases h with h | h <;> rw [h] <;> rfl
  have hrel : ∀ pmt_bruta, montar_relatorio P pmt_bruta = none := by
    intro pmt_bruta
    simp [montar_relatorio, hvazio]
  refine ⟨?_, hrel, ?_⟩
  · intro pmt_bruta
    have hb1 : base_cssl_final P pmt_bruta = 0 := by
      simp [base_cssl_final, hn3]
    have hb2 : base_irpj_final P pmt_bruta = 0 := by
      simp [base_irpj_final, hn3]
    have hb3 : base_adicional_final P pmt_bruta = 0 := by
      simp [base_adicional_final, hn3]
    have hc1 : custo_cssl_final P pmt_bruta = 0 := by
      simp [custo_cssl_final, hb1]
    have hc2 : custo_irpj_final P pmt_bruta = 0 := by
      simp [custo_irpj_final, hb2, hb3]
    have hgt := extra_index_gt P.tipo_operacao P.num_parcelas
    have hliq :
        fluxo_liquida P pmt_bruta (extra_index P.tipo_operacao P.num_parcelas) = 0 := by
      rw [fluxo_liquida, if_neg (by omega), if_neg (by omega), if_pos rfl,
        hc1, hc2]
      norm_num
    exact ⟨hc1, hc2, hb2, hb3, hliq⟩
  · intro irr refina pmt_min pmt_max n_points
    rw [simular_emprestimo]
    rcases hopt : pmt_otimizada (funcao_goal_seek_impostos P irr) refina
        pmt_min pmt_max n_points with _ | pmt
    · rfl
    · simp [hrel pmt]

/-- Witness for C3 at Rental with one installment. -/
theorem parcelas_pequenas_witness :
    montar_relatorio P_aluguel1 100 = none ∧
    base_irpj_final P_aluguel1 100 = 0 ∧
    simular_emprestimo P_aluguel1 irr_none refina_meio 1 2 3 = none := by
  have h := parcelas_pequenas P_aluguel1 (Or.inl rfl)
  exact ⟨h.2.1 100, (h.1 100).2.2.1, h.2.2 irr_none refina_meio 1 2 3⟩

lemma pmt_atual_inflacao_zero (p : ℚ) (m : ℕ) : pmt_atual p 0 m = p := by
  induction m with
  | zero => rfl
  | succ k ih =>
    rw [pmt_atual]
    split <;> simp [ih]

lemma fluxo_bruta_compra5 (pmt : ℚ) (k : ℕ) (h1 : 1 ≤ k) (h5 : k ≤ 5) :
    fluxo_bruta P_compra5 pmt k = pmt := by
  rw [fluxo_bruta, if_neg (by omega)]
  rw [show P_compra5.num_parcelas = 5 from rfl, if_pos h5]
  rw [show P_compra5.inflacao_anual = 0 from rfl, pmt_atual_inflacao_zero]

lemma soma_3_fluxos_compra5 (pmt : ℚ) : soma_3_fluxos P_compra5 pmt 4 = 3 * pmt := by
  rw [soma_3_fluxos, fluxo_bruta_compra5 pmt 1 (by norm_num) (by norm_num),
    fluxo_bruta_compra5 pmt 2 (by norm_num) (by norm_num),
    fluxo_bruta_compra5 pmt 3 (by norm_num) (by norm_num)]
  ring

/-- C1 (builder/reporter drift): at Purchase with 5 installments (zero
inflation, default rates) and any nonzero payment — in particular the optimal
one — the builder computes the period-4 IRPJ base with factor 0.32 (since
4 < 5), while the report table applies factor 0.08 at period 4 (since
4 = max(impostos_meses)): the displayed table diverges from the builder's
internal figures. -/
theorem relatorio_diverge (pmt : ℚ) (hp : pmt ≠ 0) :
    (montar_relatorio P_compra5 pmt).map (fun t => (t 4).base_irpj) =
      some (3 * pmt * (8 / 100)) ∧
    bases_irpj P_compra5 pmt 4 = 3 * pmt * (32 / 100) ∧
    3 * pmt * (8 / 100) ≠ 3 * pmt * (32 / 100) := by
  have hmem : (4 : ℕ) ∈ impostos_meses 5 := by decide
  have hne : (4 : ℕ) ≠ extra_index TipoOperacao.compra 5 := by decide
  have hmax : (impostos_meses 5).max? = some 4 := by decide
  refine ⟨?_, ?_, fun h => hp (by linarith)⟩
  · rw [montar_relatorio, show P_compra5.num_parcelas = 5 from rfl, hmax]
    simp only [Option.map_some', hmem, if_true, eq_self_iff_true]
    rw [df_base_irpj, show P_compra5.tipo_operacao = TipoOperacao.compra from rfl]
    rw [soma_3_fluxos_compra5]
    norm_num
  · rw [bases_irpj, show P_compra5.num_parcelas = 5 from rfl,
      show P_compra5.tipo_operacao = TipoOperacao.compra from rfl,
      if_neg hne, if_pos hmem, base_irpj_loop, soma_3_fluxos_compra5,
      factor_irpj, show P_compra5.num_parcelas = 5 from rfl,
      show P_compra5.tipo_operacao = TipoOperacao.compra from rfl]
    simp only [hmem, if_pos]
    norm_num

/-- Witness for C1 at payment 100: reporter base 24 versus builder base 96. -/
theorem relatorio_diverge_witness :
    (montar_relatorio P_compra5 100).map (fun t => (t 4).base_irpj) =
      some (3 * 100 * (8 / 100)) ∧
    bases_irpj P_compra5 100 4 = 3 * 100 * (32 / 100) ∧
    3 * (100 : ℚ) * (8 / 100) ≠ 3 * 100 * (32 / 100) :=
  relatorio_diverge 100 (by norm_num)

lemma fluxo_bruta_inflacao_zero (P : Params) (hinf : P.inflacao_anual = 0)
    (p : ℚ) (k : ℕ) (h1 : 1 ≤ k) (hk : k ≤ P.num_parcelas) :
    fluxo_bruta P p k = p := by
  rw [fluxo_bruta, if_neg (by omega), if_pos hk, hinf, pmt_atual_inflacao_zero]

lemma arredonda_centavos_pos (x : ℚ) (hx : 0 < x) : 0 < arredonda_centavos x := by
  rw [arredonda_centavos]
  have h1 : (0 : ℚ) < x * 100 := by positivity
  have h2 : 0 < ⌈x * 100⌉ := Int.ceil_pos.mpr h1
  have h3 : (0 : ℚ) < (⌈x * 100⌉ : ℚ) := by exact_mod_cast h2
  positivity

/-- C4 (recovery filter slip): at Purchase with 28 installments (zero
inflation) and any positive payment — in particular the optimal one — month 25
is among the last 4 installment periods (25..28) and carries a nonzero flow,
but the recovery tab assigns it the full recovery `installment × 0.34` rather
than 0, and weights it with the recovery-netted factor 1 - 0.34 (not 1) in the
discounted initial-balance sum: the `!= 0` filter compares formatted strings
with 0, keeps every row, and so the zeroed window `mes ≥ max_mes - 3` is
28..31, of which only month 28 is an actual installment period. -/
theorem recuperacao_diverge (pmt : ℚ) (hp : 0 < pmt) :
    P_compra28.tipo_operacao = TipoOperacao.compra ∧
    P_compra28.num_parcelas = 28 ∧
    max_mes_rec P_compra28 = 31 ∧
    fluxo_bruta_arred P_compra28 pmt 25 = arredonda_centavos pmt ∧
    0 < arredonda_centavos pmt ∧
    recuperacao_ir P_compra28 pmt 25 = arredonda_centavos pmt * recuperacao_irpj ∧
    arredonda_centavos pmt * recuperacao_irpj ≠ 0 ∧
    fator_rec P_compra28 25 = 1 - recuperacao_irpj ∧
    (1 - recuperacao_irpj ≠ 1) := by
  have harred : fluxo_bruta_arred P_compra28 pmt 25 = arredonda_centavos pmt := by
    rw [fluxo_bruta_arred,
      fluxo_bruta_inflacao_zero P_compra28 rfl pmt 25 (by norm_num) (by decide)]
  have hpos := arredonda_centavos_pos pmt hp
  refine ⟨rfl, rfl, by decide, harred, hpos, ?_, ?_, ?_, ?_⟩
  · rw [recuperacao_ir, if_neg (by decide), parcela_rec,
      if_neg (by norm_num), harred]
    ring
  · exact mul_ne_zero (ne_of_gt hpos) (by rw [recuperacao_irpj]; norm_num)
  · rw [fator_rec, if_neg (by decide)]
  · rw [recuperacao_irpj]
    norm_num

/-- Witness for C4 at payment 100. -/
theorem recuperacao_diverge_witness :
    recuperacao_ir P_compra28 100 25 =
      arredonda_centavos 100 * recuperacao_irpj ∧
    arredonda_centavos 100 * recuperacao_irpj ≠ 0 ∧
    fator_rec P_compra28 25 = 1 - recuperacao_irpj := by
  have h := recuperacao_diverge 100 (by norm_num)
  exact ⟨h.2.2.2.2.2.1, h.2.2.2.2.2.2.1, h.2.2.2.2.2.2.2.1⟩

lemma pmt_atual_nonneg (p i : ℚ) (hp : 0 ≤ p) (hi : 0 ≤ i) (m : ℕ) :
    0 ≤ pmt_atual p i m := by
  induction m with
  | zero => exact hp
  | succ k ih =>
    rw [pmt_atual]
    split
    · exact mul_nonneg ih (by linarith)
    · exact ih

lemma fluxo_bruta_nonneg (P : Params) (p : ℚ) (hp : 0 ≤ p)
    (hi : 0 ≤ P.inflacao_anual) (mes : ℕ) (hm : 1 ≤ mes) :
    0 ≤ fluxo_bruta P p mes := by
  rw [fluxo_bruta, if_neg (by omega)]
  split
  · exact pmt_atual_nonneg _ _ hp hi mes
  · exact le_refl 0

lemma soma_3_fluxos_nonneg (P : Params) (p : ℚ) (hp : 0 ≤ p)
    (hi : 0 ≤ P.inflacao_anual) (mes : ℕ) (hm : 4 ≤ mes) :
    0 ≤ soma_3_fluxos P p mes := by
  rw [soma_3_fluxos]
  have h1 := fluxo_bruta_nonneg P p hp hi (mes - 3) (by omega)
  have h2 := fluxo_bruta_nonneg P p hp hi (mes - 2) (by omega)
  have h3 := fluxo_bruta_nonneg P p hp hi (mes - 1) (by omega)
  linarith

lemma factor_cssl_nonneg (P : Params) (mes : ℕ) : 0 ≤ factor_cssl P mes := by
  cases h : P.tipo_operacao <;> simp only [factor_cssl, h] <;>
    split_ifs <;> norm_num

lemma factor_irpj_nonneg (P : Params) (mes : ℕ) : 0 ≤ factor_irpj P mes := by
  cases h : P.tipo_operacao <;> simp only [factor_irpj, h] <;>
    split_ifs <;> norm_num

lemma quatro_le_extra (P : Params) (h3 : 3 ≤ P.num_parcelas) :
    4 ≤ extra_index P.tipo_operacao P.num_parcelas := by
  cases h : P.tipo_operacao
  · show 4 ≤ P.num_parcelas + 1
    omega
  · exact four_le_extra_index_compra P.num_parcelas

lemma base_cssl_final_nonneg (P : Params) (p : ℚ) (hp : 0 ≤ p)
    (hi : 0 ≤ P.inflacao_anual) : 0 ≤ base_cssl_final P p := by
  rw [base_cssl_final]
  split_ifs with h3
  · refine mul_nonneg (soma_3_fluxos_nonneg P p hp hi _ (quatro_le_extra P h3)) ?_
    cases h : P.tipo_operacao <;> norm_num
  · exact le_refl 0

lemma base_irpj_final_nonneg (P : Params) (p : ℚ) (hp : 0 ≤ p)
    (hi : 0 ≤ P.inflacao_anual) : 0 ≤ base_irpj_final P p := by
  rw [base_irpj_final]
  split_ifs with h3
  · refine mul_nonneg (soma_3_fluxos_nonneg P p hp hi _ (quatro_le_extra P h3)) ?_
    cases h : P.tipo_operacao <;> norm_num
  · exact le_refl 0

lemma base_adicional_final_nonneg (P : Params) (p : ℚ) :
    0 ≤ base_adicional_final P p := by
  rw [base_adicional_final]
  split_ifs with h3 h
  · linarith
  · exact le_refl 0
  · exact le_refl 0

lemma base_adicional_loop_nonneg (P : Params) (p : ℚ) (mes : ℕ) :
    0 ≤ base_adicional_loop P p mes := by
  rw [base_adicional_loop]
  split_ifs with h
  · linarith
  · exact le_refl 0

/-- C10: for every candidate payment ≥ 0 and nonnegative rates, inflation and
exemption threshold, the builder's schedule has, at every period up to
`extra_index`, nonpositive PIS, COFINS, CSSL and IRPJ cost fields and
nonnegative IRPJ base and surtax-base fields. -/
theorem sinais_schedule (P : Params) (pmt_bruta : ℚ)
    (hp : 0 ≤ pmt_bruta) (hinf : 0 ≤ P.inflacao_anual)
    (hpis : 0 ≤ P.aliquota_pis) (hcof : 0 ≤ P.aliquota_cofins)
    (hirpj : 0 ≤ P.aliquota_irpj) (hcssl : 0 ≤ P.aliquota_cssl)
    (hadc : 0 ≤ P.aliquota_adicional_irpj) (hlim : 0 ≤ P.limite_isencao_irpj) :
    ∀ mes, mes ≤ extra_index P.tipo_operacao P.num_parcelas →
      custos_pis P pmt_bruta mes ≤ 0 ∧ custos_cofins P pmt_bruta mes ≤ 0 ∧
      custos_cssl P pmt_bruta mes ≤ 0 ∧ custos_irpj P pmt_bruta mes ≤ 0 ∧
      0 ≤ bases_irpj P pmt_bruta mes ∧
      0 ≤ bases_adicional_irpj P pmt_bruta mes := by
  intro mes hmes
  have hbase_cssl : ∀ m ∈ impostos_meses P.num_parcelas,
      0 ≤ base_cssl_loop P pmt_bruta m := by
    intro m hm
    have h4 := ((mem_impostos_meses _ _).mp hm).1
    exact mul_nonneg (soma_3_fluxos_nonneg P _ hp hinf m h4)
      (factor_cssl_nonneg P m)
  have hbase_irpj : ∀ m ∈ impostos_meses P.num_parcelas,
      0 ≤ base_irpj_loop P pmt_bruta m := by
    intro m hm
    have h4 := ((mem_impostos_meses _ _).mp hm).1
    exact mul_nonneg (soma_3_fluxos_nonneg P _ hp hinf m h4)
      (factor_irpj_nonneg P m)
  refine ⟨?_, ?_, ?_, ?_, ?_, ?_⟩
  · rw [custos_pis]
    split_ifs with h
    · exact neg_nonpos.mpr
        (mul_nonneg (fluxo_bruta_nonneg P _ hp hinf mes h.1) hpis)
    · exact le_refl 0
  · rw [custos_cofins]
    split_ifs with h
    · exact neg_nonpos.mpr
        (mul_nonneg (fluxo_bruta_nonneg P _ hp hinf mes h.1) hcof)
    · exact le_refl 0
  · rw [custos_cssl]
    split_ifs with h1 h2
    · rw [custo_cssl_final]
      exact neg_nonpos.mpr (mul_nonneg (base_cssl_final_nonneg P _ hp hinf) hcssl)
    · exact neg_nonpos.mpr (mul_nonneg (hbase_cssl mes h2) hcssl)
    · exact le_refl 0
  · rw [custos_irpj]
    split_ifs with h1 h2
    · rw [custo_irpj_final]
      exact neg_nonpos.mpr
        (add_nonneg (mul_nonneg (base_irpj_final_nonneg P _ hp hinf) hirpj)
          (mul_nonneg (base_adicional_final_nonneg P _) hadc))
    · exact neg_nonpos.mpr
        (add_nonneg (mul_nonneg (hbase_irpj mes h2) hirpj)
          (mul_nonneg (base_adicional_loop_nonneg P _ mes) hadc))
    · exact le_refl 0
  · rw [bases_irpj]
    split_ifs with h1 h2
    · exact base_irpj_final_nonneg P _ hp hinf
    · exact hbase_irpj mes h2
    · exact le_refl 0
  · rw [bases_adicional_irpj]
    split_ifs with h1 h2
    · exact base_adicional_final_nonneg P _
    · exact base_adicional_loop_nonneg P _ mes
    · exact le_refl 0

/-- Witness for C10 at the Rental scenario, payment 100, recognition month 4. -/
theorem sinais_schedule_witness :
    custos_pis P_aluguel36 100 4 ≤ 0 ∧ custos_cofins P_aluguel36 100 4 ≤ 0 ∧
    custos_cssl P_aluguel36 100 4 ≤ 0 ∧ custos_irpj P_aluguel36 100 4 ≤ 0 ∧
    0 ≤ bases_irpj P_aluguel36 100 4 ∧
    0 ≤ bases_adicional_irpj P_aluguel36 100 4 :=
  sinais_schedule P_aluguel36 100 (by norm_num) (by norm_num [P_aluguel36])
    (by norm_num [P_aluguel36]) (by norm_num [P_aluguel36])
    (by norm_num [P_aluguel36]) (by norm_num [P_aluguel36])
    (by norm_num [P_aluguel36]) (by norm_num [P_aluguel36]) 4 (by decide)

lemma le_foldl_max (r : ℚ) (l : List ℚ) : r ≤ l.foldl max r := by
  induction l generalizing r with
  | nil => exact le_refl r
  | cons a l ih => exact le_trans (le_max_left r a) (ih (max r a))

lemma mem_le_foldl_max (l : List ℚ) (x : ℚ) (hx : x ∈ l) (r : ℚ) :
    x ≤ l.foldl max r := by
  induction l generalizing r with
  | nil => cases hx
  | cons a l ih =>
    rcases List.mem_cons.mp hx with h | h
    · subst h
      exact le_trans (le_max_right r x) (le_foldl_max (max r x) l)
    · exact ih h (max r a)

lemma foldl_max_mem (l : List ℚ) (r : ℚ) :
    l.foldl max r = r ∨ l.foldl max r ∈ l := by
  induction l generalizing r with
  | nil => exact Or.inl rfl
  | cons a l ih =>
    rw [List.foldl_cons]
    rcases ih (max r a) with h | h
    · rcases max_choice r a with hh | hh
      · exact Or.inl (h.trans hh)
      · exact Or.inr (List.mem_cons.mpr (Or.inl (h.trans hh)))
    · exact Or.inr (List.mem_cons.mpr (Or.inr h))

lemma raizes_eq_nil (f : ℚ → ℚ) (refina : ℚ → ℚ → Option ℚ) (grid : List ℚ)
    (h : ∀ i ∈ List.range (grid.length - 1),
      ¬ f (grid.getD i 0) * f (grid.getD (i + 1) 0) < 0) :
    raizes f refina grid = [] := by
  rw [raizes, List.filterMap_eq_nil_iff]
  intro i hi
  rw [if_neg (h i hi)]

lemma raizes_ne_nil (f : ℚ → ℚ) (refina : ℚ → ℚ → Option ℚ) (grid : List ℚ)
    (href : ∀ a b, f a * f b < 0 → (refina a b).isSome = true) (i : ℕ)
    (hi : i ∈ List.range (grid.length - 1))
    (hsign : f (grid.getD i 0) * f (grid.getD (i + 1) 0) < 0) :
    raizes f refina grid ≠ [] := by
  intro hnil
  obtain ⟨x, hx⟩ := Option.isSome_iff_exists.mp (href _ _ hsign)
  have hxmem : x ∈ raizes f refina grid := by
    rw [raizes, List.mem_filterMap]
    exact ⟨i, hi, by rw [if_pos hsign, hx]⟩
  rw [hnil] at hxmem
  exact absurd hxmem (List.not_mem_nil x)

lemma pmt_otimizada_eq_none_iff (f : ℚ → ℚ) (refina : ℚ → ℚ → Option ℚ)
    (pmt_min pmt_max : ℚ) (n_points : ℕ) :
    pmt_otimizada f refina pmt_min pmt_max n_points = none ↔
      raizes f refina (pmt_grid pmt_min pmt_max n_points) = [] := by
  rw [pmt_otimizada]
  rcases h : raizes f refina (pmt_grid pmt_min pmt_max n_points) with _ | ⟨r, rs⟩ <;>
    simp

lemma pmt_grid_getD (a b : ℚ) (npts i : ℕ) (hi : i < npts) :
    (pmt_grid a b npts).getD i 0 = a + (b - a) * i / (npts - 1 : ℕ) := by
  rw [pmt_grid, List.getD_eq_getElem?_getD, List.getElem?_map,
    List.getElem?_range hi]
  rfl

lemma pmt_grid_length (a b : ℚ) (npts : ℕ) : (pmt_grid a b npts).length = npts := by
  rw [pmt_grid, List.length_map, List.length_range]

/-- C7: assuming the bracket refiner converges on every genuine sign-change
bracket (the guarantee of Brent's method), the root search fails exactly when
no adjacent grid pair has opposite-signed objective values; when it returns a
payment, that payment is one of the converged roots and is the largest of
them; and a degenerate range with `pmt_min = pmt_max` always fails. -/
theorem busca_raizes_spec (P : Params) (irr : List ℚ → Option ℚ)
    (refina : ℚ → ℚ → Option ℚ) (pmt_min pmt_max : ℚ) (n_points : ℕ)
    (href : ∀ a b,
      funcao_goal_seek_impostos P irr a * funcao_goal_seek_impostos P irr b < 0 →
      (refina a b).isSome = true) :
    (pmt_otimizada (funcao_goal_seek_impostos P irr) refina pmt_min pmt_max
        n_points = none ↔
      ¬ ∃ i ∈ List.range ((pmt_grid pmt_min pmt_max n_points).length - 1),
          funcao_goal_seek_impostos P irr
              ((pmt_grid pmt_min pmt_max n_points).getD i 0) *
            funcao_goal_seek_impostos P irr
              ((pmt_grid pmt_min pmt_max n_points).getD (i + 1) 0) < 0) ∧
    (∀ r, pmt_otimizada (funcao_goal_seek_impostos P irr) refina pmt_min
        pmt_max n_points = some r →
      r ∈ raizes (funcao_goal_seek_impostos P irr) refina
          (pmt_grid pmt_min pmt_max n_points) ∧
      ∀ s ∈ raizes (funcao_goal_seek_impostos P irr) refina
          (pmt_grid pmt_min pmt_max n_points), s ≤ r) ∧
    (pmt_min = pmt_max →
      pmt_otimizada (funcao_goal_seek_impostos P irr) refina pmt_min pmt_max
        n_points = none) := by
  have hnone_iff : pmt_otimizada (funcao_goal_seek_impostos P irr) refina
      pmt_min pmt_max n_points = none ↔
      ¬ ∃ i ∈ List.range ((pmt_grid pmt_min pmt_max n_points).length - 1),
          funcao_goal_seek_impostos P irr
              ((pmt_grid pmt_min pmt_max n_points).getD i 0) *
            funcao_goal_seek_impostos P irr
              ((pmt_grid pmt_min pmt_max n_points).getD (i + 1) 0) < 0 := by
    rw [pmt_otimizada_eq_none_iff]
    constructor
    · rintro hnil ⟨i, hi, hsign⟩
      exact raizes_ne_nil _ refina _ href i hi hsign hnil
    · intro hno
      exact raizes_eq_nil _ refina _ (fun i hi hs => hno ⟨i, hi, hs⟩)
  refine ⟨hnone_iff, ?_, ?_⟩
  · intro r hr
    rcases h : raizes (funcao_goal_seek_impostos P irr) refina
        (pmt_grid pmt_min pmt_max n_points) with _ | ⟨a, rs⟩
    · rw [pmt_otimizada, h] at hr
      cases hr
    · rw [pmt_otimizada, h] at hr
      have hfold : rs.foldl max a = r := by
        injection hr
      constructor
      · rcases foldl_max_mem rs a with hm | hm
        · rw [← hfold, hm]
          exact List.mem_cons_self a rs
        · rw [← hfold]
          exact List.mem_cons_of_mem a hm
      · intro s hs
        rcases List.mem_cons.mp hs with hsa | hsr
        · rw [hsa, ← hfold]
          exact le_foldl_max a rs
        · rw [← hfold]
          exact mem_le_foldl_max rs s hsr a
  · intro heq
    apply hnone_iff.mpr
    rintro ⟨i, hi, hsign⟩
    rw [List.mem_range, pmt_grid_length] at hi
    have hconst : ∀ j, j < n_points →
        (pmt_grid pmt_min pmt_max n_points).getD j 0 = pmt_min := by
      intro j hj
      rw [pmt_grid_getD pmt_min pmt_max n_points j hj, heq]
      ring
    rw [hconst i (by omega), hconst (i + 1) (by omega)] at hsign
    exact absurd hsign (not_lt.mpr (mul_self_nonneg _))

/-- Witness for C7: a degenerate one-point range yields no solution. -/
theorem busca_raizes_spec_witness :
    pmt_otimizada (funcao_goal_seek_impostos P_aluguel1 irr_none) refina_meio
      1 1 3 = none :=
  (busca_raizes_spec P_aluguel1 irr_none refina_meio 1 1 3
    (fun a b _ => rfl)).2.2 rfl

end Premissas
